import Mathlib

/-!
Verification of the `lint_configs` Python package
(`src/python/lint_configs/__init__.py`), a path-resolution shim that exposes
the installed locations of two bundled lint configuration files.
-/

/-- A `pathlib.Path` value: whether it is anchored at the filesystem root,
and its list of name segments. -/
structure PyPath where
  absolute : Bool
  segments : List String
deriving DecidableEq, Repr

/-- The `pathlib` join `p / s` for a relative single-name segment `s` — the
only form of join the module performs (its operands are the fixed relative
literals `"python"`, `"pyproject-linters.toml"` and `"ruff.toml"`): it appends
the name to the path. -/
def PyPath.join (p : PyPath) (s : String) : PyPath :=
  { p with segments := p.segments ++ [s] }

/-- `Path.parent`: drops the final segment (the root is its own parent). -/
def PyPath.parent (p : PyPath) : PyPath :=
  { p with segments := p.segments.dropLast }

/-- POSIX rendering of a path, slash-separated. -/
def PyPath.render (p : PyPath) : String :=
  (if p.absolute then "/" else "") ++ String.intercalate "/" p.segments

/-- Line 9 of `__init__.py`: `_PACKAGE_DIR = Path(__file__).parent`, as a
function of the interpreter-supplied `__file__` path of the module. -/
def _PACKAGE_DIR (file : PyPath) : PyPath :=
  file.parent

/-- Lines 12–24 of `__init__.py`: `get_python_config_path` returns
`_PACKAGE_DIR / "python" / "pyproject-linters.toml"`, as a function of the
module-level package directory. -/
def get_python_config_path (pkgDir : PyPath) : PyPath :=
  (pkgDir.join "python").join "pyproject-linters.toml"

/-- Lines 27–46 of `__init__.py`: `get_ruff_config_path` returns
`_PACKAGE_DIR / "ruff.toml"`, as a function of the module-level package
directory. -/
def get_ruff_config_path (pkgDir : PyPath) : PyPath :=
  pkgDir.join "ruff.toml"

/-- The module-level state of the imported module: the fields bound at
lines 6, 9 and 49 of `__init__.py`. -/
structure ModuleState where
  _PACKAGE_DIR : PyPath
  __version__ : String
  __all__ : List String
deriving DecidableEq, Repr

/-- Module load (import time): executes lines 6, 9 and 49 of `__init__.py`
given the interpreter-supplied `__file__` path. -/
def moduleInit (file : PyPath) : ModuleState :=
  ModuleState.mk (_PACKAGE_DIR file) "1.0.0"
    ["get_python_config_path", "get_ruff_config_path", "__version__"]

/-- A call to `get_python_config_path()` against the module state: it reads
`_PACKAGE_DIR` and returns the state unchanged together with the computed
path. -/
def ModuleState.call_get_python_config_path (s : ModuleState) :
    ModuleState × PyPath :=
  (s, get_python_config_path s._PACKAGE_DIR)

/-- A call to `get_ruff_config_path()` against the module state: it reads
`_PACKAGE_DIR` and returns the state unchanged together with the computed
path. -/
def ModuleState.call_get_ruff_config_path (s : ModuleState) :
    ModuleState × PyPath :=
  (s, get_ruff_config_path s._PACKAGE_DIR)

/-- The two public operations of the module, for sequencing calls. -/
inductive ApiCall
  | pythonConfig
  | ruffConfig
deriving DecidableEq, Repr

/-- Dispatch one API call against the module state. -/
def ModuleState.runCall (s : ModuleState) : ApiCall → ModuleState × PyPath
  | .pythonConfig => s.call_get_python_config_path
  | .ruffConfig => s.call_get_ruff_config_path

/-- Run a sequence of API calls, threading the module state. -/
def ModuleState.runCalls (s : ModuleState) : List ApiCall → ModuleState
  | [] => s
  | c :: cs => ((s.runCall c).1).runCalls cs

/-- A value produced by an instrumented computation, together with a count of
the filesystem operations (existence checks, reads) it performed. -/
structure Traced (α : Type) where
  value : α
  fsOps : Nat
deriving DecidableEq, Repr

/-- Instrumented `pathlib` join: the join of path segments is pure in-memory
path arithmetic — it performs no filesystem operation and raises no
exception, so it always returns `Except.ok` with a zero operation count. -/
def PyPath.joinT (p : PyPath) (s : String) : Except String (Traced PyPath) :=
  Except.ok ⟨p.join s, 0⟩

/-- Instrumented run of `get_python_config_path()`: the two joins of
lines 12–24, with exceptions as `Except.error` and filesystem operations
counted. -/
def get_python_config_path_run (pkgDir : PyPath) :
    Except String (Traced PyPath) := do
  let r1 ← pkgDir.joinT "python"
  let r2 ← r1.value.joinT "pyproject-linters.toml"
  return ⟨r2.value, r1.fsOps + r2.fsOps⟩

/-- Instrumented run of `get_ruff_config_path()`: the join of lines 27–46,
with exceptions as `Except.error` and filesystem operations counted. -/
def get_ruff_config_path_run (pkgDir : PyPath) :
    Except String (Traced PyPath) := do
  let r ← pkgDir.joinT "ruff.toml"
  return ⟨r.value, r.fsOps⟩

/-- A module variant of the repository: the function names it defines, its
`__version__` string, and its `__all__` export list. -/
structure ModuleVariant where
  definedFunctions : List String
  __version__ : String
  __all__ : List String
deriving DecidableEq, Repr

/-- The module definition under `src/python/lint_configs/__init__.py`: it
defines both accessor functions, sets `__version__ = "1.0.0"` (line 6), and
exports the three public names (line 49). -/
def srcVariant : ModuleVariant :=
  ModuleVariant.mk ["get_python_config_path", "get_ruff_config_path"] "1.0.0"
    ["get_python_config_path", "get_ruff_config_path", "__version__"]

/-- Modelled from the spec: the second, near-identical module definition of
the repository (not present under `src/`), which defines only
`get_python_config_path` and omits `get_ruff_config_path` entirely, has
`__version__ = "1.0.0"`, and whose export list contains exactly the names of
the functions it defines plus `__version__`, with no dangling exports. -/
def dupVariant : ModuleVariant :=
  ModuleVariant.mk ["get_python_config_path"] "1.0.0"
    ["get_python_config_path", "__version__"]

/-- C1: for every package directory, `get_python_config_path()` returns the
path whose segments are the package directory's segments followed by exactly
`python` and `pyproject-linters.toml` (so its prefix is the package's own
directory) and whose anchor is the package directory's; in particular, with
the package directory at `/opt/lib/lint_configs/` it returns
`/opt/lib/lint_configs/python/pyproject-linters.toml`. -/
theorem C1_get_python_config_path_spec (d : PyPath) :
    (get_python_config_path d).segments =
        d.segments ++ ["python", "pyproject-linters.toml"] ∧
    (get_python_config_path d).absolute = d.absolute ∧
    (get_python_config_path (PyPath.mk true ["opt", "lib", "lint_configs"])).render =
      "/opt/lib/lint_configs/python/pyproject-linters.toml" := by
  refine ⟨?_, rfl, rfl⟩
  simp [get_python_config_path, PyPath.join]

/-- C2: for every package directory, `get_ruff_config_path()` returns the
path whose segments are the package directory's segments followed by exactly
`ruff.toml` (so its prefix is the package's own directory) and whose anchor
is the package directory's; in particular, with the package directory at
`/opt/lib/lint_configs/` it returns `/opt/lib/lint_configs/ruff.toml`. -/
theorem C2_get_ruff_config_path_spec (d : PyPath) :
    (get_ruff_config_path d).segments = d.segments ++ ["ruff.toml"] ∧
    (get_ruff_config_path d).absolute = d.absolute ∧
    (get_ruff_config_path (PyPath.mk true ["opt", "lib", "lint_configs"])).render =
      "/opt/lib/lint_configs/ruff.toml" :=
  ⟨rfl, rfl, rfl⟩

/-- C3: when the interpreter-supplied `__file__` path of the installed module
is absolute, `_PACKAGE_DIR` is absolute and the paths returned by both
`get_python_config_path()` and `get_ruff_config_path()` are absolute. -/
theorem C3_paths_absolute (file : PyPath) (h : file.absolute = true) :
    (_PACKAGE_DIR file).absolute = true ∧
    (get_python_config_path (_PACKAGE_DIR file)).absolute = true ∧
    (get_ruff_config_path (_PACKAGE_DIR file)).absolute = true := by
  simp [_PACKAGE_DIR, PyPath.parent, get_python_config_path,
    get_ruff_config_path, PyPath.join, h]

/-- Witness for C3 at the concrete `__file__` path
`/opt/lib/lint_configs/__init__.py`. -/
theorem C3_paths_absolute_witness :
    (PyPath.mk true ["opt", "lib", "lint_configs", "__init__.py"]).absolute = true ∧
    ((_PACKAGE_DIR (PyPath.mk true ["opt", "lib", "lint_configs", "__init__.py"])).absolute = true ∧
     (get_python_config_path (_PACKAGE_DIR (PyPath.mk true ["opt", "lib", "lint_configs", "__init__.py"]))).absolute = true ∧
     (get_ruff_config_path (_PACKAGE_DIR (PyPath.mk true ["opt", "lib", "lint_configs", "__init__.py"]))).absolute = true) :=
  ⟨rfl, C3_paths_absolute (PyPath.mk true ["opt", "lib", "lint_configs", "__init__.py"]) rfl⟩

/-- C4: the repository holds two near-identical module definitions: the one
under `src/` defines both accessor functions, while the duplicate defines
only `get_python_config_path` and omits `get_ruff_config_path`, so
`get_ruff_config_path` is present in exactly one variant. -/
theorem C4_two_variants :
    "get_python_config_path" ∈ srcVariant.definedFunctions ∧
    "get_ruff_config_path" ∈ srcVariant.definedFunctions ∧
    "get_python_config_path" ∈ dupVariant.definedFunctions ∧
    "get_ruff_config_path" ∉ dupVariant.definedFunctions := by
  refine ⟨?_, ?_, ?_, ?_⟩ <;> simp [srcVariant, dupVariant]

/-- C5: both accessor functions are total and cannot fail: for every package
directory, their instrumented runs return `Except.ok` (never an exception)
carrying the computed path and a filesystem-operation count of zero (no I/O,
no existence check is performed). -/
theorem C5_total_cannot_fail (d : PyPath) :
    get_python_config_path_run d =
        Except.ok (Traced.mk (get_python_config_path d) 0) ∧
    get_ruff_config_path_run d =
        Except.ok (Traced.mk (get_ruff_config_path d) 0) :=
  ⟨rfl, rfl⟩

/-- C6: both accessors are deterministic pure functions of `_PACKAGE_DIR`
alone: any two invocations from module states agreeing on `_PACKAGE_DIR`
(regardless of any other state) return equal path values, and a repeated
invocation from the state left by a first one returns the same value. -/
theorem C6_deterministic_idempotent (s t : ModuleState)
    (h : s._PACKAGE_DIR = t._PACKAGE_DIR) :
    s.call_get_python_config_path.2 = t.call_get_python_config_path.2 ∧
    s.call_get_ruff_config_path.2 = t.call_get_ruff_config_path.2 ∧
    (s.call_get_python_config_path.1).call_get_python_config_path.2 =
      s.call_get_python_config_path.2 ∧
    (s.call_get_ruff_config_path.1).call_get_ruff_config_path.2 =
      s.call_get_ruff_config_path.2 := by
  refine ⟨?_, ?_, rfl, rfl⟩ <;>
    simp [ModuleState.call_get_python_config_path,
      ModuleState.call_get_ruff_config_path, h]

/-- Witness for C6 at two concrete module states sharing a `_PACKAGE_DIR`. -/
theorem C6_deterministic_idempotent_witness :
    (moduleInit (PyPath.mk true ["opt", "lib", "lint_configs", "__init__.py"]))._PACKAGE_DIR =
      (ModuleState.mk (PyPath.mk true ["opt", "lib", "lint_configs"]) "9.9.9" [])._PACKAGE_DIR ∧
    ((moduleInit (PyPath.mk true ["opt", "lib", "lint_configs", "__init__.py"])).call_get_python_config_path.2 =
      (ModuleState.mk (PyPath.mk true ["opt", "lib", "lint_configs"]) "9.9.9" []).call_get_python_config_path.2 ∧
     (moduleInit (PyPath.mk true ["opt", "lib", "lint_configs", "__init__.py"])).call_get_ruff_config_path.2 =
      (ModuleState.mk (PyPath.mk true ["opt", "lib", "lint_configs"]) "9.9.9" []).call_get_ruff_config_path.2 ∧
     ((moduleInit (PyPath.mk true ["opt", "lib", "lint_configs", "__init__.py"])).call_get_python_config_path.1).call_get_python_config_path.2 =
      (moduleInit (PyPath.mk true ["opt", "lib", "lint_configs", "__init__.py"])).call_get_python_config_path.2 ∧
     ((moduleInit (PyPath.mk true ["opt", "lib", "lint_configs", "__init__.py"])).call_get_ruff_config_path.1).call_get_ruff_config_path.2 =
      (moduleInit (PyPath.mk true ["opt", "lib", "lint_configs", "__init__.py"])).call_get_ruff_config_path.2) :=
  ⟨rfl, C6_deterministic_idempotent
    (moduleInit (PyPath.mk true ["opt", "lib", "lint_configs", "__init__.py"]))
    (ModuleState.mk (PyPath.mk true ["opt", "lib", "lint_configs"]) "9.9.9" []) rfl⟩

/-- C7: for each variant, a name is in `__all__` iff it is one of the
functions that variant actually defines or `__version__`: there are no
dangling exports. -/
theorem C7_all_exact (name : String) :
    (name ∈ srcVariant.__all__ ↔
      name ∈ srcVariant.definedFunctions ∨ name = "__version__") ∧
    (name ∈ dupVariant.__all__ ↔
      name ∈ dupVariant.definedFunctions ∨ name = "__version__") := by
  constructor
  · simp [srcVariant]
    tauto
  · simp [dupVariant]

/-- C8: the module-level constant `__version__` equals the literal string
`1.0.0` in both module variants. -/
theorem C8_version :
    srcVariant.__version__ = "1.0.0" ∧ dupVariant.__version__ = "1.0.0" :=
  ⟨rfl, rfl⟩

/-- C9: module state is frozen after load: running any sequence of accessor
calls leaves the module state — `_PACKAGE_DIR`, `__version__`, `__all__` —
exactly as it was, and `_PACKAGE_DIR` is the value computed once at import
time from `__file__`. -/
theorem C9_state_unchanged (file : PyPath) (calls : List ApiCall) :
    (moduleInit file).runCalls calls = moduleInit file ∧
    ((moduleInit file).runCalls calls)._PACKAGE_DIR = _PACKAGE_DIR file := by
  have key : ∀ (s : ModuleState) (cs : List ApiCall), s.runCalls cs = s := by
    intro s cs
    induction cs with
    | nil => rfl
    | cons c t ih =>
      cases c <;>
        simpa [ModuleState.runCalls, ModuleState.runCall,
          ModuleState.call_get_python_config_path,
          ModuleState.call_get_ruff_config_path] using ih
  exact ⟨key _ _, by rw [key]; rfl⟩

/-- C10: both accessors are anchored at the package directory and never
collide: the parent of the Ruff path equals the parent of the parent of the
Python-linters path (both are the package directory), and the two paths are
never equal. -/
theorem C10_anchored_disjoint (d : PyPath) :
    (get_ruff_config_path d).parent = d ∧
    (get_python_config_path d).parent.parent = d ∧
    (get_ruff_config_path d).parent = (get_python_config_path d).parent.parent ∧
    get_ruff_config_path d ≠ get_python_config_path d := by
  obtain ⟨a, segs⟩ := d
  refine ⟨?_, ?_, ?_, ?_⟩
  · simp [get_ruff_config_path, PyPath.join, PyPath.parent]
  · simp [get_python_config_path, PyPath.join, PyPath.parent,
      List.dropLast_append_of_ne_nil]
  · simp [get_ruff_config_path, get_python_config_path, PyPath.join,
      PyPath.parent, List.dropLast_append_of_ne_nil]
  · intro h
    have h2 := congrArg (fun p => p.segments.length) h
    simp [get_ruff_config_path, get_python_config_path, PyPath.join] at h2
